import Mathlib

/-!
Shallow embedding of the UrbanGate visitor-lifecycle and amenity-booking
logic.

The persistence layer is modelled as a list of rows; a supabase
`update(payload).eq(col, k)` is a `List.map` that rewrites every row whose
key column matches, a `select ... .eq ... .maybeSingle()` is a filter
followed by a "exactly one row" extraction (zero rows and an error from
two-or-more rows both surface to the caller as a null `data`), and an
`insert` is an append.  Wall-clock times of day are the `"HH:MM"` /
`"HH:MM:SS"` strings the source compares with JavaScript string
comparison, modelled by lexicographic `String` order; timestamps
(`check_in_at`, `check_out_at`) are abstract `Nat` clock values.
-/

namespace UrbanGate

/-- Lexicographic comparison of character lists by code point: the
comparison JavaScript applies to strings (and Postgres to the canonical
`"HH:MM"` / `"HH:MM:SS"` time strings at play here). -/
def charListLt : List Char → List Char → Bool
| _, [] => false
| [], _ :: _ => true
| a :: as, b :: bs =>
  if a.toNat < b.toNat then true
  else if b.toNat < a.toNat then false
  else charListLt as bs

/-- `s < t` on strings, as JavaScript's `<` evaluates it. -/
def strLt (s t : String) : Bool := charListLt s.data t.data

/-- A whitespace character, for `trim()`. -/
def isWsChar (c : Char) : Bool :=
  decide (c = ' ') || decide (c = '\t') || decide (c = '\n') || decide (c = '\r')

/-- Strip leading and trailing whitespace from a character list. -/
def trimChars (l : List Char) : List Char :=
  ((l.dropWhile isWsChar).reverse.dropWhile isWsChar).reverse

/-- JavaScript's `String.prototype.trim()`. -/
def jsTrim (s : String) : String := String.mk (trimChars s.data)

/-- Upper-case one ASCII letter, for `toUpperCase()`. -/
def upChar (c : Char) : Char :=
  if 97 ≤ c.toNat ∧ c.toNat ≤ 122 then Char.ofNat (c.toNat - 32) else c

/-- JavaScript's `String.prototype.toUpperCase()` on the ASCII inputs at
play here. -/
def jsToUpper (s : String) : String := String.mk (s.data.map upChar)

/-- Visitor lifecycle status, from `types.ts` (`Visitor.status`). -/
inductive VStatus
| PENDING
| WAITING_APPROVAL
| ENTERED
| EXITED
| REJECTED
deriving DecidableEq, Repr

/-- Visitor kind, from `types.ts` (`Visitor.type`). -/
inductive VType
| PRE_APPROVED
| WALK_IN
deriving DecidableEq, Repr

/-- A row of the `visitors` table (`types.ts`, interface `Visitor`). -/
structure Visitor where
  id : Nat
  building_id : Nat
  name : String
  phone : String
  purpose : String
  flat_number : String
  type : VType
  status : VStatus
  check_in_at : Option Nat := none
  check_out_at : Option Nat := none
  invite_code : Option String := none
deriving DecidableEq, Repr

/-- A row of the `profiles` table, restricted to the columns the gate
lookup reads (`types.ts`, interface `Profile`). -/
structure Profile where
  id : Nat
  building_id : Nat
  flat_number : String
  wing : String
  is_verified : Bool
deriving DecidableEq, Repr

/-- `maybeSingle()`: `some` the unique row of the result set; `none` when
the set is empty, and also when it has two or more rows (supabase then
reports an error and the callers here read a null `data`). -/
def maybeSingle {α : Type} : List α → Option α
| [v] => some v
| _ => none

/-- The status argument of `handleDecision` in `ResidentDashboard.tsx`,
whose TypeScript type is the union `'ENTERED' | 'REJECTED'`. -/
inductive DecisionStatus
| ENTERED
| REJECTED
deriving DecidableEq, Repr

/-- Embedding of the union member into the full status enum. -/
def DecisionStatus.toVStatus : DecisionStatus → VStatus
| .ENTERED => .ENTERED
| .REJECTED => .REJECTED

/-- `handleDecision` (`ResidentDashboard.tsx` lines 181-198): the
resident approve/deny action.  The source runs
`update({ status, check_in_at: status === 'ENTERED' ? now : null })
.eq('id', visitorId)` — the row filter is on `id` alone, with no
condition on the current status. -/
def handleDecision (db : List Visitor) (visitorId : Nat)
    (status : DecisionStatus) (now : Nat) : List Visitor :=
  db.map fun v =>
    if v.id = visitorId then
      { v with
        status := status.toVStatus
        check_in_at := if status = .ENTERED then some now else none }
    else v

/-- The `callback_query` branch of the `send-push` edge function
(`serve`, part_005 lines 43-59): a Telegram approve/deny tap.  The
action string maps to `'ENTERED'` when it is `"approve"` and `'REJECTED'`
otherwise, and the database update is the same unconditional
`update({ status, check_in_at: ... }).eq('id', visitorId)`. -/
def telegramCallbackUpdate (db : List Visitor) (visitorId : Nat)
    (action : String) (now : Nat) : List Visitor :=
  let status : VStatus := if action = "approve" then .ENTERED else .REJECTED
  db.map fun v =>
    if v.id = visitorId then
      { v with
        status := status
        check_in_at := if status = .ENTERED then some now else none }
    else v

/-- Feedback shown by the gate terminal for a code-validation attempt
(`handleVerifyCode`): `invalidOrExpired` is the `NotFound` outcome
(`'INVALID OR EXPIRED PASS'`), `accessGranted` the success outcome. -/
inductive VerifyFeedback
| invalidOrExpired
| accessGranted (name : String)
deriving DecidableEq, Repr

/-- The gate lookup query of `handleVerifyCode` (part_000 lines
470-476): all `visitors` rows with this building, this exact
`invite_code` and status `PENDING`. -/
def pendingWithCode (db : List Visitor) (buildingId : Nat)
    (code : String) : List Visitor :=
  db.filter fun v =>
    decide (v.building_id = buildingId) &&
    decide (v.invite_code = some code) &&
    decide (v.status = .PENDING)

/-- Core of `handleVerifyCode` (part_000 lines 465-491), the spec's
`validateCode(tenant, code)`: look up the unique PENDING visitor of the
building carrying the code (`maybeSingle`); if none, report
`invalidOrExpired` and leave the table unchanged; otherwise set that
visitor's row to `ENTERED` with `check_in_at` stamped
(`update({...}).eq('id', data.id)`). -/
def validateCode (db : List Visitor) (buildingId : Nat) (code : String)
    (now : Nat) : VerifyFeedback × List Visitor :=
  match maybeSingle (pendingWithCode db buildingId code) with
  | none => (.invalidOrExpired, db)
  | some v =>
      (.accessGranted v.name,
       db.map fun w =>
         if w.id = v.id then
           { w with status := .ENTERED, check_in_at := some now }
         else w)

/-- `handleVerifyCode` as called from the gate UI: the submitted field is
trimmed (`inviteCode.trim()`) before the lookup. -/
def handleVerifyCode (db : List Visitor) (buildingId : Nat)
    (inviteCode : String) (now : Nat) : VerifyFeedback × List Visitor :=
  validateCode db buildingId (jsTrim inviteCode) now

/-- `handleExit` (part_000 lines 523-527, and the second copy at lines
1057-1076): `update({ status: 'EXITED', check_out_at: now })
.eq('id', id)` — again filtered on `id` alone, with no condition on the
current status. -/
def handleExit (db : List Visitor) (id : Nat) (now : Nat) : List Visitor :=
  db.map fun v =>
    if v.id = id then
      { v with status := .EXITED, check_out_at := some now }
    else v

/-- The debounced resident lookup backing `residentProfile` (part_000
lines 427-458): trim the flat number, trim and upper-case the wing;
when the flat field is non-empty, query `profiles` by building and flat,
adding the wing filter only when a wing was typed, and take
`maybeSingle`; otherwise the profile is null. -/
def resolveResident (profiles : List Profile) (buildingId : Nat)
    (flatNumber wingInput : String) : Option Profile :=
  let flat := jsTrim flatNumber
  let wing := jsToUpper (jsTrim wingInput)
  if 1 ≤ flat.length then
    maybeSingle (profiles.filter fun p =>
      decide (p.building_id = buildingId) &&
      decide (p.flat_number = flat) &&
      (decide (wing = "") || decide (p.wing = wing)))
  else
    none

/-- The walk-in request form of the gate terminal. -/
structure WalkInForm where
  name : String
  phone : String
  wing : String
  flatNumber : String
  purpose : String
deriving Repr

/-- Feedback of `handleRequestEntry`: `residentNotVerified` is the
`Unauthorized` outcome (`'RESIDENT NOT VERIFIED BY ADMIN'`), `pinging`
the success path (`'PINGING TELEGRAM FOR UNIT ...'`). -/
inductive RequestFeedback
| residentNotVerified
| pinging (flat : String)
deriving DecidableEq, Repr

/-- The visitor row inserted by `handleRequestEntry` on success. -/
def walkInVisitor (buildingId : Nat) (form : WalkInForm) (newId : Nat) :
    Visitor :=
  { id := newId
    building_id := buildingId
    name := jsTrim form.name
    phone := jsTrim form.phone
    purpose := jsTrim form.purpose
    flat_number := jsTrim form.flatNumber
    type := .WALK_IN
    status := .WAITING_APPROVAL }

/-- `handleRequestEntry` (part_000 lines 493-521), the spec's
`requestWalkInEntry`: if the resolved resident profile is null or not
verified, report `residentNotVerified` and insert nothing; otherwise
insert a `WALK_IN` visitor in state `WAITING_APPROVAL`. -/
def handleRequestEntry (profiles : List Profile) (db : List Visitor)
    (buildingId : Nat) (form : WalkInForm) (newId : Nat) :
    RequestFeedback × List Visitor :=
  match resolveResident profiles buildingId form.flatNumber form.wing with
  | none => (.residentNotVerified, db)
  | some p =>
      if p.is_verified then
        (.pinging form.flatNumber, db ++ [walkInVisitor buildingId form newId])
      else
        (.residentNotVerified, db)

/-- A row of the `amenities` table, restricted to the columns
`handleBooking` reads; `open_time` / `close_time` are nullable text the
source tests for JavaScript truthiness. -/
structure Amenity where
  id : String
  open_time : Option String := none
  close_time : Option String := none
deriving DecidableEq, Repr

/-- A row of the `bookings` table (`types.ts`, interface `Booking`). -/
structure Booking where
  id : Nat
  building_id : Nat
  amenity_id : String
  profile_id : Nat
  resident_name : String
  flat_number : String
  date : String
  start_time : String
  end_time : String
deriving DecidableEq, Repr

/-- The booking form of `ResidentDashboard.tsx`. -/
structure BookingForm where
  amenityId : String
  date : String
  startTime : String
  endTime : String
deriving Repr

/-- Outcome of `handleBooking`: `selectAmenityFirst` for an empty
amenity choice, `endBeforeStart` is `InvalidRange`, `invalidTime` is
`OutsideOperatingHours` (carrying the hours of the message), and
`slotReserved` is `SlotOccupied`. -/
inductive BookingResult
| selectAmenityFirst
| endBeforeStart
| invalidTime (openT closeT : String)
| slotReserved
| confirmed
deriving DecidableEq, Repr

/-- JavaScript truthiness of a nullable text column: false for null and
for the empty string. -/
def truthy : Option String → Bool
| none => false
| some s => decide (s ≠ "")

/-- The operating-hours step of `handleBooking` (lines 233-241): when an
amenity was found locally and both `open_time` and `close_time` are
truthy, a proposal starting before `open_time` or ending after
`close_time` is an error carrying those hours; in every other case the
step is a no-op. -/
def hoursViolation (selectedAmenity : Option Amenity)
    (startTime endTime : String) : Option (String × String) :=
  match selectedAmenity with
  | none => none
  | some a =>
      match a.open_time, a.close_time with
      | some o, some c =>
          if o ≠ "" ∧ c ≠ "" then
            if strLt startTime o || strLt c endTime then some (o, c) else none
          else none
      | _, _ => none

/-- The clash-detection query of `handleBooking` (lines 244-250): all
bookings of the amenity on the date with
`start_time < endTime` and `end_time > startTime`. -/
def clashQuery (bookings : List Booking)
    (amenityId date startTime endTime : String) : List Booking :=
  bookings.filter fun b =>
    decide (b.amenity_id = amenityId) &&
    decide (b.date = date) &&
    strLt b.start_time endTime &&
    strLt startTime b.end_time

/-- The booking row inserted by `handleBooking` on success. -/
def newBooking (buildingId profileId : Nat)
    (residentName flatNumber : String) (form : BookingForm)
    (newId : Nat) : Booking :=
  { id := newId
    building_id := buildingId
    amenity_id := form.amenityId
    profile_id := profileId
    resident_name := residentName
    flat_number := flatNumber
    date := form.date
    start_time := form.startTime
    end_time := form.endTime }

/-- `handleBooking` (`ResidentDashboard.tsx` lines 215-281), the spec's
`proposeBooking`: reject an empty amenity choice, then
`startTime >= endTime`, then the operating-hours step, then the clash
query (`clashes.length > 0`); otherwise insert the booking. -/
def handleBooking (amenities : List Amenity) (bookings : List Booking)
    (buildingId profileId : Nat) (residentName flatNumber : String)
    (form : BookingForm) (newId : Nat) : BookingResult × List Booking :=
  if form.amenityId = "" then
    (.selectAmenityFirst, bookings)
  else if !strLt form.startTime form.endTime then
    (.endBeforeStart, bookings)
  else
    match hoursViolation
        (amenities.find? fun a => decide (a.id = form.amenityId))
        form.startTime form.endTime with
    | some oc => (.invalidTime oc.1 oc.2, bookings)
    | none =>
        if 0 < (clashQuery bookings form.amenityId form.date
            form.startTime form.endTime).length then
          (.slotReserved, bookings)
        else
          (.confirmed,
           bookings ++
             [newBooking buildingId profileId residentName flatNumber
               form newId])

/-! Shared fixture data for the concrete scenarios. -/

/-- The "Pool" amenity of the C1 scenario, open 06:00-22:00. -/
def poolAmenity : Amenity :=
  { id := "pool", open_time := some "06:00", close_time := some "22:00" }

/-- The existing pool booking 10:00-11:00 on 2024-06-01. -/
def poolBooking : Booking :=
  { id := 1, building_id := 1, amenity_id := "pool", profile_id := 7
    resident_name := "Asha", flat_number := "101", date := "2024-06-01"
    start_time := "10:00", end_time := "11:00" }

/-- A walk-in visitor in state `WAITING_APPROVAL`. -/
def waitingVisitor : Visitor :=
  { id := 1, building_id := 1, name := "Guest", phone := "555"
    purpose := "Meeting", flat_number := "101", type := .WALK_IN
    status := .WAITING_APPROVAL }

/-- A pre-approved visitor in state `PENDING` carrying code 483920. -/
def pendingVisitor : Visitor :=
  { waitingVisitor with
    type := .PRE_APPROVED, status := .PENDING, invite_code := some "483920" }

/-! Shared helper lemmas. -/

/-- `maybeSingle` answers `some` exactly on the singleton list. -/
theorem maybeSingle_eq_some {α : Type} {l : List α} {v : α} :
    maybeSingle l = some v ↔ l = [v] := by
  cases l with
  | nil => simp [maybeSingle]
  | cons a t =>
      cases t with
      | nil => simp [maybeSingle]
      | cons b t2 => simp [maybeSingle]

/-- The clash query returns a row iff some existing booking of the
amenity and date overlaps the proposed half-open interval. -/
theorem clashQuery_length_pos_iff (bookings : List Booking)
    (amenityId date startTime endTime : String) :
    0 < (clashQuery bookings amenityId date startTime endTime).length ↔
      ∃ b ∈ bookings, b.amenity_id = amenityId ∧ b.date = date ∧
        strLt b.start_time endTime = true ∧
        strLt startTime b.end_time = true := by
  rw [List.length_pos_iff_exists_mem]
  constructor
  · rintro ⟨b, hb⟩
    rw [clashQuery, List.mem_filter] at hb
    obtain ⟨hmem, hcond⟩ := hb
    simp only [Bool.and_eq_true, decide_eq_true_eq] at hcond
    exact ⟨b, hmem, hcond.1.1.1, hcond.1.1.2, hcond.1.2, hcond.2⟩
  · rintro ⟨b, hmem, h1, h2, h3, h4⟩
    refine ⟨b, ?_⟩
    rw [clashQuery, List.mem_filter]
    exact ⟨hmem, by simp [h1, h2, h3, h4]⟩

/-- With the first three validation steps out of the way, `handleBooking`
reduces to the clash decision. -/
theorem handleBooking_eq_clash_step (amenities : List Amenity)
    (bookings : List Booking) (buildingId profileId : Nat)
    (residentName flatNumber : String) (form : BookingForm) (newId : Nat)
    (hAmenity : form.amenityId ≠ "")
    (hRange : strLt form.startTime form.endTime = true)
    (hHours : hoursViolation
        (amenities.find? fun x => decide (x.id = form.amenityId))
        form.startTime form.endTime = none) :
    handleBooking amenities bookings buildingId profileId residentName
        flatNumber form newId =
      if 0 < (clashQuery bookings form.amenityId form.date form.startTime
          form.endTime).length then
        (.slotReserved, bookings)
      else
        (.confirmed,
         bookings ++
           [newBooking buildingId profileId residentName flatNumber form
             newId]) := by
  unfold handleBooking
  rw [if_neg hAmenity, hRange, hHours]
  rfl

/-- Claim C1: once a proposal has passed the range and operating-hours
checks, `handleBooking` answers `slotReserved` exactly when some existing
booking of the same amenity and date has `start_time` before the proposed
end and `end_time` after the proposed start; when no such booking exists
(in particular when intervals merely touch at an endpoint) the proposal
is confirmed and appended to the table. -/
theorem handleBooking_slotReserved_iff_overlap (amenities : List Amenity)
    (bookings : List Booking) (buildingId profileId : Nat)
    (residentName flatNumber : String) (form : BookingForm) (newId : Nat)
    (hAmenity : form.amenityId ≠ "")
    (hRange : strLt form.startTime form.endTime = true)
    (hHours : hoursViolation
        (amenities.find? fun x => decide (x.id = form.amenityId))
        form.startTime form.endTime = none) :
    ((handleBooking amenities bookings buildingId profileId residentName
        flatNumber form newId).1 = .slotReserved ↔
      ∃ b ∈ bookings, b.amenity_id = form.amenityId ∧ b.date = form.date ∧
        strLt b.start_time form.endTime = true ∧
        strLt form.startTime b.end_time = true) ∧
    ((∀ b ∈ bookings, ¬(b.amenity_id = form.amenityId ∧
        b.date = form.date ∧ strLt b.start_time form.endTime = true ∧
        strLt form.startTime b.end_time = true)) →
      handleBooking amenities bookings buildingId profileId residentName
          flatNumber form newId =
        (.confirmed,
         bookings ++
           [newBooking buildingId profileId residentName flatNumber form
             newId])) := by
  have hb := handleBooking_eq_clash_step amenities bookings buildingId
    profileId residentName flatNumber form newId hAmenity hRange hHours
  have hkey := clashQuery_length_pos_iff bookings form.amenityId form.date
    form.startTime form.endTime
  constructor
  · constructor
    · intro hres
      by_cases hc : 0 < (clashQuery bookings form.amenityId form.date
          form.startTime form.endTime).length
      · exact hkey.mp hc
      · rw [hb, if_neg hc] at hres
        exact absurd hres (by simp)
    · intro hex
      rw [hb, if_pos (hkey.mpr hex)]
  · intro hno
    have hc : ¬ 0 < (clashQuery bookings form.amenityId form.date
        form.startTime form.endTime).length := by
      intro hc
      obtain ⟨b, hmem, hconds⟩ := hkey.mp hc
      exact hno b hmem hconds
    rw [hb, if_neg hc]

/-- Witness for C1: against the pool scenario (open 06:00-22:00,
existing booking 10:00-11:00 on 2024-06-01) the 10:30-11:30 proposal is
`slotReserved`, while the touching 11:00-12:00 and 09:00-10:00 proposals
are confirmed and persisted. -/
theorem handleBooking_slotReserved_iff_overlap_witness :
    (handleBooking [poolAmenity] [poolBooking] 1 7 "Asha" "101"
        { amenityId := "pool", date := "2024-06-01"
          startTime := "10:30", endTime := "11:30" } 2).1 = .slotReserved ∧
    handleBooking [poolAmenity] [poolBooking] 1 7 "Asha" "101"
        { amenityId := "pool", date := "2024-06-01"
          startTime := "11:00", endTime := "12:00" } 2 =
      (.confirmed, [poolBooking] ++
        [newBooking 1 7 "Asha" "101"
          { amenityId := "pool", date := "2024-06-01"
            startTime := "11:00", endTime := "12:00" } 2]) ∧
    handleBooking [poolAmenity] [poolBooking] 1 7 "Asha" "101"
        { amenityId := "pool", date := "2024-06-01"
          startTime := "09:00", endTime := "10:00" } 2 =
      (.confirmed, [poolBooking] ++
        [newBooking 1 7 "Asha" "101"
          { amenityId := "pool", date := "2024-06-01"
            startTime := "09:00", endTime := "10:00" } 2]) := by
  refine ⟨?_, ?_, ?_⟩
  · exact (handleBooking_slotReserved_iff_overlap [poolAmenity]
      [poolBooking] 1 7 "Asha" "101" _ 2 (by decide) (by decide)
      (by decide)).1.mpr
      ⟨poolBooking, by decide, by decide, by decide, by decide, by decide⟩
  · exact (handleBooking_slotReserved_iff_overlap [poolAmenity]
      [poolBooking] 1 7 "Asha" "101" _ 2 (by decide) (by decide)
      (by decide)).2 (by decide)
  · exact (handleBooking_slotReserved_iff_overlap [poolAmenity]
      [poolBooking] 1 7 "Asha" "101" _ 2 (by decide) (by decide)
      (by decide)).2 (by decide)


/-- The amenity of the C9 scenario, open 09:00-22:00. -/
def gymAmenity : Amenity :=
  { id := "gym", open_time := some "09:00", close_time := some "22:00" }

/-- An amenity whose `close_time` is the empty string, so the
operating-hours check is skipped for it. -/
def hallAmenity : Amenity :=
  { id := "hall", open_time := some "09:00", close_time := some "" }

/-- The 08:00-09:00 proposal of the C9 scenario. -/
def form0800 : BookingForm :=
  { amenityId := "gym", date := "2024-06-01"
    startTime := "08:00", endTime := "09:00" }

/-- A late-night 23:00-23:30 proposal, outside any daytime hours. -/
def form2300 : BookingForm :=
  { amenityId := "hall", date := "2024-06-01"
    startTime := "23:00", endTime := "23:30" }

/-- Claim C9: when the selected amenity is found with non-empty hours and
the proposal (with a valid range) starts before `open_time` or ends after
`close_time`, `handleBooking` rejects it with the operating-hours error
and persists nothing. -/
theorem handleBooking_outside_hours_rejected (amenities : List Amenity)
    (bookings : List Booking) (buildingId profileId : Nat)
    (residentName flatNumber : String) (form : BookingForm) (newId : Nat)
    (a : Amenity) (o c : String)
    (hAmenity : form.amenityId ≠ "")
    (hRange : strLt form.startTime form.endTime = true)
    (hFound : (amenities.find? fun x => decide (x.id = form.amenityId)) =
      some a)
    (hO : a.open_time = some o) (hC : a.close_time = some c)
    (hOne : o ≠ "") (hCne : c ≠ "")
    (hOut : strLt form.startTime o = true ∨ strLt c form.endTime = true) :
    handleBooking amenities bookings buildingId profileId residentName
        flatNumber form newId = (.invalidTime o c, bookings) := by
  have hH : hoursViolation
      (amenities.find? fun x => decide (x.id = form.amenityId))
      form.startTime form.endTime = some (o, c) := by
    rw [hFound]
    simp only [hoursViolation, hO, hC]
    rw [if_pos ⟨hOne, hCne⟩, if_pos ((Bool.or_eq_true _ _).mpr hOut)]
  unfold handleBooking
  rw [if_neg hAmenity, hRange, hH]
  rfl

/-- Witness for C9: the 08:00-09:00 proposal against an amenity open
09:00-22:00 is rejected as outside operating hours. -/
theorem handleBooking_outside_hours_rejected_witness :
    handleBooking [gymAmenity] [] 1 7 "Asha" "101" form0800 2 =
      (.invalidTime "09:00" "22:00", []) :=
  handleBooking_outside_hours_rejected [gymAmenity] [] 1 7 "Asha" "101"
    form0800 2 gymAmenity "09:00" "22:00" (by decide) (by decide)
    (by decide) (by decide) (by decide) (by decide) (by decide)
    (Or.inl (by decide))

/-- Claim C10: when the selected amenity is absent from the locally
fetched list, or its `open_time` or `close_time` is null or empty, the
operating-hours step is skipped: no operating-hours error can be
returned, and a proposal with a valid range and no clash is confirmed
and persisted regardless of the time of day. -/
theorem handleBooking_hours_check_skipped (amenities : List Amenity)
    (bookings : List Booking) (buildingId profileId : Nat)
    (residentName flatNumber : String) (form : BookingForm) (newId : Nat)
    (hSkip : (amenities.find? fun x => decide (x.id = form.amenityId)) =
        none ∨
      ∃ a, (amenities.find? fun x => decide (x.id = form.amenityId)) =
          some a ∧
        (truthy a.open_time = false ∨ truthy a.close_time = false)) :
    (∀ o c, (handleBooking amenities bookings buildingId profileId
        residentName flatNumber form newId).1 ≠ .invalidTime o c) ∧
    (form.amenityId ≠ "" → strLt form.startTime form.endTime = true →
      (∀ b ∈ bookings, ¬(b.amenity_id = form.amenityId ∧
          b.date = form.date ∧ strLt b.start_time form.endTime = true ∧
          strLt form.startTime b.end_time = true)) →
      handleBooking amenities bookings buildingId profileId residentName
          flatNumber form newId =
        (.confirmed,
         bookings ++
           [newBooking buildingId profileId residentName flatNumber form
             newId])) := by
  have hH : hoursViolation
      (amenities.find? fun x => decide (x.id = form.amenityId))
      form.startTime form.endTime = none := by
    rcases hSkip with h | ⟨a, ha, hfalsy⟩
    · rw [h]
      rfl
    · rw [ha]
      rcases hao : a.open_time with _ | o
      · simp only [hoursViolation, hao]
      · rcases hac : a.close_time with _ | c
        · simp only [hoursViolation, hao, hac]
        · simp only [hoursViolation, hao, hac]
          rw [if_neg]
          rintro ⟨h1, h2⟩
          rcases hfalsy with hf | hf
          · rw [hao] at hf
            exact h1 (by simpa [truthy] using hf)
          · rw [hac] at hf
            exact h2 (by simpa [truthy] using hf)
  constructor
  · intro o c
    by_cases h1 : form.amenityId = ""
    · unfold handleBooking
      rw [if_pos h1]
      simp
    · by_cases h2 : strLt form.startTime form.endTime = true
      · rw [handleBooking_eq_clash_step amenities bookings buildingId
          profileId residentName flatNumber form newId h1 h2 hH]
        split
        · simp
        · simp
      · have h2f : strLt form.startTime form.endTime = false := by
          revert h2
          cases strLt form.startTime form.endTime <;> simp
        unfold handleBooking
        rw [if_neg h1, h2f]
        simp
  · intro hAmenity hRange hno
    have hc : ¬ 0 < (clashQuery bookings form.amenityId form.date
        form.startTime form.endTime).length := by
      intro hc
      obtain ⟨b, hmem, hconds⟩ := (clashQuery_length_pos_iff bookings
        form.amenityId form.date form.startTime form.endTime).mp hc
      exact hno b hmem hconds
    rw [handleBooking_eq_clash_step amenities bookings buildingId profileId
      residentName flatNumber form newId hAmenity hRange hH, if_neg hc]

/-- Witness for C10: an amenity whose `close_time` is the empty string
lets a 23:00-23:30 proposal through to confirmation, and an amenity id
absent from the list never yields an operating-hours error. -/
theorem handleBooking_hours_check_skipped_witness :
    handleBooking [hallAmenity] [] 1 7 "Asha" "101" form2300 2 =
      (.confirmed, [] ++ [newBooking 1 7 "Asha" "101" form2300 2]) ∧
    (handleBooking [] [] 1 7 "Asha" "101" form2300 2).1 ≠
      .invalidTime "09:00" "22:00" := by
  constructor
  · exact (handleBooking_hours_check_skipped [hallAmenity] [] 1 7 "Asha"
      "101" form2300 2
      (Or.inr ⟨hallAmenity, by decide, Or.inr (by decide)⟩)).2
      (by decide) (by decide) (by decide)
  · exact (handleBooking_hours_check_skipped [] [] 1 7 "Asha" "101"
      form2300 2 (Or.inl (by decide))).1 "09:00" "22:00"

/-- Claim C2: `validateCode` answers `NotFound` when no `PENDING` visitor
of the tenant carries exactly the code, and a code is single-use: after a
successful validation (which moves the matched visitor to `ENTERED`), a
second call with the same code also answers `NotFound` and leaves the
table unchanged. -/
theorem validateCode_notFound_and_single_use (db : List Visitor)
    (buildingId : Nat) (code : String) (now now2 : Nat) :
    ((∀ v ∈ db, ¬(v.building_id = buildingId ∧
        v.invite_code = some code ∧ v.status = VStatus.PENDING)) →
      validateCode db buildingId code now = (.invalidOrExpired, db)) ∧
    (∀ n db2, validateCode db buildingId code now =
        (.accessGranted n, db2) →
      validateCode db2 buildingId code now2 = (.invalidOrExpired, db2)) := by
  constructor
  · intro hnone
    have hnil : pendingWithCode db buildingId code = [] := by
      rw [pendingWithCode, List.filter_eq_nil_iff]
      intro v hv
      simp only [Bool.and_eq_true, decide_eq_true_eq, not_and]
      intro h1 h2
      exact hnone v hv ⟨h1.1, h1.2, h2⟩
    simp only [validateCode, hnil, maybeSingle]
  · intro n db2 hsucc
    rcases hms : maybeSingle (pendingWithCode db buildingId code)
      with _ | v
    · rw [validateCode, hms] at hsucc
      exact absurd hsucc (by simp)
    · rw [validateCode, hms] at hsucc
      have hdb2 : db2 = db.map fun w =>
          if w.id = v.id then
            { w with status := .ENTERED, check_in_at := some now }
          else w := by
        cases hsucc
        rfl
      have hfil : pendingWithCode db buildingId code = [v] :=
        maybeSingle_eq_some.mp hms
      have huniq : ∀ w ∈ db,
          (decide (w.building_id = buildingId) &&
           decide (w.invite_code = some code) &&
           decide (w.status = VStatus.PENDING)) = true → w = v := by
        intro w hw hpw
        have hmem : w ∈ pendingWithCode db buildingId code :=
          List.mem_filter.mpr ⟨hw, hpw⟩
        rw [hfil] at hmem
        simpa using hmem
      have hnil2 : pendingWithCode db2 buildingId code = [] := by
        rw [hdb2, pendingWithCode, List.filter_eq_nil_iff]
        intro w hw
        rcases List.mem_map.mp hw with ⟨u, hu, rfl⟩
        by_cases hid : u.id = v.id
        · simp [hid]
        · simp only [if_neg hid]
          intro hcontra
          exact hid (congrArg Visitor.id (huniq u hu hcontra))
      simp only [validateCode, hnil2, maybeSingle]

/-- Witness for C2: validating code 483920 admits the pending visitor
(status `ENTERED`, `check_in_at` stamped); re-validating the same code
afterwards, and validating a never-issued code against an empty table,
both answer `NotFound`. -/
theorem validateCode_notFound_and_single_use_witness :
    validateCode [pendingVisitor] 1 "483920" 5 =
      (.accessGranted "Guest",
       [{ pendingVisitor with status := .ENTERED, check_in_at := some 5 }]) ∧
    validateCode
        [{ pendingVisitor with status := .ENTERED, check_in_at := some 5 }]
        1 "483920" 6 =
      (.invalidOrExpired,
       [{ pendingVisitor with status := .ENTERED, check_in_at := some 5 }]) ∧
    validateCode [] 1 "999999" 0 = (.invalidOrExpired, []) := by
  refine ⟨by decide, ?_, ?_⟩
  · exact (validateCode_notFound_and_single_use [pendingVisitor] 1 "483920"
      5 6).2 "Guest"
      [{ pendingVisitor with status := .ENTERED, check_in_at := some 5 }]
      (by decide)
  · exact (validateCode_notFound_and_single_use [] 1 "999999" 0 0).1
      (by decide)

/-- A verified resident profile for unit 101. -/
def verifiedResident : Profile :=
  { id := 1, building_id := 1, flat_number := "101", wing := "A"
    is_verified := true }

/-- The same profile, not yet verified by the admin. -/
def unverifiedResident : Profile :=
  { verifiedResident with is_verified := false }

/-- The walk-in form of the C8 scenario. -/
def walkForm : WalkInForm :=
  { name := "Bob", phone := "9", wing := "", flatNumber := "101"
    purpose := "Repair" }

/-- Claim C8: a walk-in entry request whose unit does not resolve to a
verified resident profile (unknown unit, ambiguous unit, or unverified
resident) is refused with the unauthorized feedback and inserts no
visitor row; when the unit resolves to a verified resident, a visitor of
type `WALK_IN` in state `WAITING_APPROVAL` is inserted. -/
theorem handleRequestEntry_requires_verified_resident
    (profiles : List Profile) (db : List Visitor) (buildingId : Nat)
    (form : WalkInForm) (newId : Nat) :
    ((resolveResident profiles buildingId form.flatNumber form.wing =
        none ∨
      ∃ p, resolveResident profiles buildingId form.flatNumber form.wing =
          some p ∧ p.is_verified = false) →
      handleRequestEntry profiles db buildingId form newId =
        (.residentNotVerified, db)) ∧
    (∀ p, resolveResident profiles buildingId form.flatNumber form.wing =
        some p → p.is_verified = true →
      handleRequestEntry profiles db buildingId form newId =
        (.pinging form.flatNumber,
         db ++ [walkInVisitor buildingId form newId])) := by
  constructor
  · rintro (h | ⟨p, hp, hv⟩)
    · unfold handleRequestEntry
      rw [h]
    · unfold handleRequestEntry
      rw [hp]
      simp [hv]
  · intro p hp hv
    unfold handleRequestEntry
    rw [hp]
    simp [hv]

/-- Witness for C8: the request for unit 101 is refused while the
resident profile is unverified (and no row is inserted), and goes
through as a `WAITING_APPROVAL` walk-in once the profile is verified. -/
theorem handleRequestEntry_requires_verified_resident_witness :
    handleRequestEntry [unverifiedResident] [] 1 walkForm 10 =
      (.residentNotVerified, []) ∧
    handleRequestEntry [verifiedResident] [] 1 walkForm 10 =
      (.pinging "101", [] ++ [walkInVisitor 1 walkForm 10]) := by
  constructor
  · exact (handleRequestEntry_requires_verified_resident
      [unverifiedResident] [] 1 walkForm 10).1
      (Or.inr ⟨unverifiedResident, by decide, by decide⟩)
  · exact (handleRequestEntry_requires_verified_resident
      [verifiedResident] [] 1 walkForm 10).2 verifiedResident
      (by decide) (by decide)

/-- A visitor already inside the premises: status `ENTERED` with
`check_in_at` stamped. -/
def enteredVisitor : Visitor :=
  { waitingVisitor with status := .ENTERED, check_in_at := some 100 }

/-- A visitor the resident already denied: terminal status `REJECTED`. -/
def rejectedVisitor : Visitor :=
  { waitingVisitor with status := .REJECTED }

/-- Claim C3 (violated by the code): `handleDecision` on a visitor whose
status is not `WAITING_APPROVAL` does not fail — the update filters on
`id` alone, so deciding an already-`ENTERED` visitor silently rewrites
its row to `REJECTED` (and wipes `check_in_at`); there is no
`InvalidState` outcome in the code at all. -/
theorem handleDecision_no_state_guard :
    handleDecision [enteredVisitor] 1 .REJECTED 200 =
      [{ enteredVisitor with status := .REJECTED, check_in_at := none }] :=
  by decide

/-- Claim C4 (violated by the code): the Telegram deny callback writes
`check_in_at: null` unconditionally, so on a visitor that is already
`ENTERED` with `check_in_at` set, the timestamp is cleared back to null.
-/
theorem telegramCallback_clears_check_in_at :
    telegramCallbackUpdate [enteredVisitor] 1 "deny" 200 =
      [{ enteredVisitor with status := .REJECTED, check_in_at := none }] :=
  by decide

/-- Claim C5 (violated by the code): a terminal visitor is not protected
from further transitions — an approve callback on a `REJECTED` visitor
resurrects it to `ENTERED`, and `handleExit` moves a `REJECTED` visitor
to `EXITED`. -/
theorem terminal_states_not_protected :
    telegramCallbackUpdate [rejectedVisitor] 1 "approve" 300 =
      [{ rejectedVisitor with status := .ENTERED, check_in_at := some 300 }] ∧
    handleExit [rejectedVisitor] 1 300 =
      [{ rejectedVisitor with status := .EXITED, check_out_at := some 300 }] :=
  by decide

/-- Claim C6 (violated by the code): `handleExit` on a visitor whose
status is not `ENTERED` does not fail with `InvalidState` — it rewrites a
`PENDING` visitor's row to `EXITED` and stamps `check_out_at`. -/
theorem handleExit_no_state_guard :
    handleExit [pendingVisitor] 1 400 =
      [{ pendingVisitor with status := .EXITED, check_out_at := some 400 }] :=
  by decide

/-- Claim C7 (violated by the code): the decision update is not a
compare-and-swap on the current status, so two racing `decide` calls on
the same `WAITING_APPROVAL` visitor both apply — the first moves it to
`ENTERED`, the second still succeeds and overwrites to `REJECTED`,
clearing `check_in_at`; neither observes `InvalidState`. -/
theorem handleDecision_race_both_apply :
    handleDecision [waitingVisitor] 1 .ENTERED 100 =
      [{ waitingVisitor with status := .ENTERED, check_in_at := some 100 }] ∧
    handleDecision (handleDecision [waitingVisitor] 1 .ENTERED 100) 1
        .REJECTED 200 =
      [{ waitingVisitor with status := .REJECTED, check_in_at := none }] :=
  by decide

end UrbanGate
